import Mathlib

/-!
# EngageNinja messaging core — shallow embedding and verification

This file embeds the provider-abstraction / webhook-normalization layer of
the EngageNinja backend in Lean 4 and proves or refutes the stated
properties of that layer.

Embedded sources:
* `src/backend/src/services/messaging/providerFactory.js`
  (`decryptCredentials`, `getProvider`)
* `src/backend/src/services/messaging/providers/TwilioSmsProvider.js`
  (`send`, `parseWebhook`, `verifyWebhookSignature`)
* `TwilioWhatsAppProvider` (extends the SMS provider)
* `SESEmailProvider` (`send`, `parseWebhook`)
* `DemoProvider` (`send`, `parseWebhook`)

Modelling conventions:
* JavaScript string-or-undefined values are `Option String`; JS truthiness
  on such a value is `truthy` below (absent and `""` are falsy).
* External primitives (the Twilio client, the SES client, `JSON.parse` of a
  string, SHA-256, AES decryption, `twilio.validateRequest`, the wall
  clock) are explicit oracle parameters: the embedded functions are
  parametric in them exactly where the source calls out to them.
* A JavaScript exception escaping a function boundary is `Except.error`;
  a normal return is `Except.ok`.  Where the source wraps its entire body
  in `try/catch`, the embedding returns the catch block's value on the
  paths where the source throws inside the `try`.
-/

namespace EngageNinja

/-- JS truthiness of a string-or-undefined value: `undefined`/`null` and the
empty string are falsy, every other string is truthy. -/
def truthy : Option String → Bool
  | none => false
  | some s => s ≠ ""

/-- JS `a || b` on string-or-undefined values. -/
def jsOr (a b : Option String) : Option String :=
  if truthy a then a else b

/-- JS string interpolation of a string-or-undefined value
(`undefined` prints as `"undefined"`). -/
def jsStr : Option String → String
  | none => "undefined"
  | some s => s

/-- A JavaScript exception value. -/
inductive JsError where
  | typeError (msg : String)
  | error (msg : String)
  deriving Repr, DecidableEq

/-- The `e.message` field of a JS exception. -/
def JsError.message : JsError → String
  | .typeError m => m
  | .error m => m

/-! ## Decrypted credential objects and the spec-modelled base class -/

/-- A decrypted credential object (the JSON object stored encrypted in
`tenant_channel_credentials_v2.credentials_json_encrypted`). -/
structure CredObj where
  accountSid : Option String := none
  authToken : Option String := none
  accessKeyId : Option String := none
  secretAccessKey : Option String := none
  region : Option String := none
  deriving Repr, DecidableEq

/-- Field access on a credential object by JS property name. -/
def CredObj.field (c : CredObj) : String → Option String
  | "accountSid" => c.accountSid
  | "authToken" => c.authToken
  | "accessKeyId" => c.accessKeyId
  | "secretAccessKey" => c.secretAccessKey
  | "region" => c.region
  | _ => none

/-- Modelled from the spec: the `MessagingProvider` base class is not under
`src/`; per §4.3 every adapter "must validate message completeness" and the
concrete constructors call `hasRequiredCredentials([...])` to reject a
missing or incomplete credential object.  It holds exactly when a credential
object is present and every named field on it is set and non-empty. -/
def hasRequiredCredentials (creds : Option CredObj) (fields : List String) : Bool :=
  match creds with
  | none => false
  | some c => fields.all (fun f => truthy (c.field f))

/-- Modelled from the spec: the `MessagingProvider` base class is not under
`src/`; per §4.4 and the glossary, `normalizeStatus` maps a carrier status
string onto {sent, delivered, read, failed, unknown}: `delivered→delivered`,
`failed`/`undelivered→failed`, everything else passes through as its own
normalized name, or `unknown` if unrecognized (an absent status is
unrecognized). -/
def normalizeStatus : Option String → String
  | some "sent" => "sent"
  | some "delivered" => "delivered"
  | some "read" => "read"
  | some "failed" => "failed"
  | some "undelivered" => "failed"
  | some "unknown" => "unknown"
  | _ => "unknown"

/-! ## providerFactory.js — `decryptCredentials` -/

/-- Cryptographic and parsing primitives the factory calls out to:
`crypto.createHash('sha256')`, `crypto.createDecipheriv('aes-192-cbc',...)`
(update+final, throwing on bad input), and `JSON.parse` on the decrypted
plaintext.  `aesDecrypt key iv hexCiphertext` is the full
decipher-update-final pipeline; `Except.error` is the thrown exception. -/
structure CryptoOracles where
  sha256 : String → List Nat
  aesDecrypt : List Nat → List Nat → String → Except String String
  parseCredJson : String → Except String CredObj

/-- Key derivation: `crypto.createHash('sha256').update(encryptionKey).digest().subarray(0, 24)`. -/
def deriveKey (sha256 : String → List Nat) (encryptionKey : String) : List Nat :=
  (sha256 encryptionKey).take 24

/-- The fixed all-zero initialization vector: `Buffer.alloc(16, 0)`. -/
def zeroIV : List Nat := List.replicate 16 0

/-- Errors raised (as JS `Error`s) by the resolver pipeline in
`providerFactory.js` and the adapter constructors. -/
inductive ResolveError where
  /-- `Tenant not found: ${tenantId}` -/
  | tenantNotFound (tenantId : String)
  /-- `No provider configured for tenant ${tenantId}, channel ${channel}` -/
  | channelNotConfigured (tenantId channel : String)
  /-- `Invalid credentials - decryption failed` -/
  | invalidCredentials
  /-- `Twilio does not support channel: ${channel}` /
  `AWS SES does not support channel: ${channel}` -/
  | unsupportedChannel (provider channel : String)
  /-- `Unknown provider: ${creds.provider}` -/
  | unknownProvider (provider : String)
  /-- A constructor's missing-credentials error, e.g.
  `Twilio SMS: Missing required credentials (accountSid, authToken)` -/
  | missingCredentials (msg : String)
  /-- `JSON.parse(creds.provider_config_json)` threw (uncaught in the factory) -/
  | configJsonError (msg : String)
  deriving Repr, DecidableEq

/-- Embedding of `decryptCredentials(encryptedData)` from `providerFactory.js`:
returns `null` for a falsy blob; otherwise derives the AES-192 key by
SHA-256-hashing the configured key string (env `ENCRYPTION_KEY` or the
dev default) truncated to 24 bytes, uses the all-zero IV, and inside
`try` decrypts hex→utf8 and `JSON.parse`s; any failure throws the single
typed error `Invalid credentials - decryption failed`. -/
def decryptCredentials (oracles : CryptoOracles) (envEncryptionKey : Option String)
    (encryptedData : Option String) : Except ResolveError (Option CredObj) :=
  if truthy encryptedData = false then Except.ok none
  else
    match oracles.aesDecrypt
        (deriveKey oracles.sha256
          (jsStr (jsOr envEncryptionKey (some "default-dev-key-change-in-production"))))
        zeroIV (jsStr encryptedData) with
    | Except.error _ => Except.error ResolveError.invalidCredentials
    | Except.ok decrypted =>
      match oracles.parseCredJson decrypted with
      | Except.error _ => Except.error ResolveError.invalidCredentials
      | Except.ok obj => Except.ok (some obj)

/-! ## providerFactory.js — `getProvider` -/

/-- Non-secret provider config (`provider_config_json`, parsed), as read by
the adapters. -/
structure ProviderConfig where
  phone_number : Option String := none
  messaging_service_sid : Option String := none
  whatsapp_number : Option String := none
  webhook_url : Option String := none
  configuration_set : Option String := none
  deriving Repr, DecidableEq

/-- A row of `tenants` as selected by `getProvider`. -/
structure TenantRow where
  id : String
  is_demo : Bool
  deriving Repr, DecidableEq

/-- A row of `tenant_channel_credentials_v2` as selected by `getProvider`. -/
structure CredRow where
  provider : String
  credentials_json_encrypted : Option String
  provider_config_json : Option String
  deriving Repr, DecidableEq

/-- The database as seen by the factory: point reads on `tenants` and on
`tenant_channel_credentials_v2` keyed by (tenant, channel). -/
structure Db where
  tenants : String → Option TenantRow
  creds : String → String → Option CredRow

/-- A resolved adapter instance (the value a successful `getProvider`
returns). -/
inductive Provider where
  | demo (tenantId channel : String)
  | twilioSms (tenantId channel : String) (creds : Option CredObj) (config : ProviderConfig)
  | twilioWhatsApp (tenantId channel : String) (creds : Option CredObj) (config : ProviderConfig)
  | sesEmail (tenantId channel : String) (creds : Option CredObj) (config : ProviderConfig)
  deriving Repr, DecidableEq

/-- Observable steps of a single `getProvider` call, used to state *when*
the factory touches the credential store, the decryptor, and the adapter
constructors. -/
inductive ResolveEvent where
  | tenantLookup
  | credLookup
  | decrypt
  | construct (provider : String)
  deriving Repr, DecidableEq

/-- The `TwilioSmsProvider` constructor: validates
`hasRequiredCredentials(['accountSid', 'authToken'])` and throws
`Twilio SMS: Missing required credentials (accountSid, authToken)`
otherwise. -/
def TwilioSmsProvider.construct (tenantId channel : String) (creds : Option CredObj)
    (config : ProviderConfig) : Except ResolveError Provider :=
  if hasRequiredCredentials creds ["accountSid", "authToken"] = false then
    Except.error (ResolveError.missingCredentials
      "Twilio SMS: Missing required credentials (accountSid, authToken)")
  else Except.ok (Provider.twilioSms tenantId channel creds config)

/-- The `TwilioWhatsAppProvider` class extends `TwilioSmsProvider` and inherits its
constructor (same credential validation). -/
def TwilioWhatsAppProvider.construct (tenantId channel : String) (creds : Option CredObj)
    (config : ProviderConfig) : Except ResolveError Provider :=
  if hasRequiredCredentials creds ["accountSid", "authToken"] = false then
    Except.error (ResolveError.missingCredentials
      "Twilio SMS: Missing required credentials (accountSid, authToken)")
  else Except.ok (Provider.twilioWhatsApp tenantId channel creds config)

/-- The `SESEmailProvider` constructor: validates
`hasRequiredCredentials(['accessKeyId', 'secretAccessKey', 'region'])`. -/
def SESEmailProvider.construct (tenantId channel : String) (creds : Option CredObj)
    (config : ProviderConfig) : Except ResolveError Provider :=
  if hasRequiredCredentials creds ["accessKeyId", "secretAccessKey", "region"] = false then
    Except.error (ResolveError.missingCredentials
      "AWS SES: Missing required credentials (accessKeyId, secretAccessKey, region)")
  else Except.ok (Provider.sesEmail tenantId channel creds config)

/-- Embedding of `getProvider(tenantId, channel)` from `providerFactory.js`, instrumented
with the list of observable steps it performs.  Steps mirror the source:
tenant point read; demo short-circuit (the `DemoProvider` constructor never
throws); credential point read; `decryptCredentials`; `JSON.parse` of
`provider_config_json` when truthy; dispatch on `creds.provider`/`channel`;
adapter constructor. -/
def getProvider (oracles : CryptoOracles) (parseConfigJson : String → Except String ProviderConfig)
    (envEncryptionKey : Option String) (db : Db) (tenantId channel : String) :
    List ResolveEvent × Except ResolveError Provider :=
  match db.tenants tenantId with
  | none => ([ResolveEvent.tenantLookup], Except.error (ResolveError.tenantNotFound tenantId))
  | some tenant =>
    if tenant.is_demo then
      ([ResolveEvent.tenantLookup, ResolveEvent.construct "demo"],
        Except.ok (Provider.demo tenantId channel))
    else
      match db.creds tenantId channel with
      | none =>
        ([ResolveEvent.tenantLookup, ResolveEvent.credLookup],
          Except.error (ResolveError.channelNotConfigured tenantId channel))
      | some creds =>
        match decryptCredentials oracles envEncryptionKey creds.credentials_json_encrypted with
        | Except.error e =>
          ([ResolveEvent.tenantLookup, ResolveEvent.credLookup, ResolveEvent.decrypt],
            Except.error e)
        | Except.ok decrypted =>
          let trace := [ResolveEvent.tenantLookup, ResolveEvent.credLookup, ResolveEvent.decrypt]
          match
            (if truthy creds.provider_config_json then
              parseConfigJson (jsStr creds.provider_config_json)
            else Except.ok {}) with
          | Except.error e => (trace, Except.error (ResolveError.configJsonError e))
          | Except.ok config =>
            match creds.provider with
            | "twilio" =>
              if channel = "sms" then
                (trace ++ [ResolveEvent.construct "twilio"],
                  TwilioSmsProvider.construct tenantId channel decrypted config)
              else if channel = "whatsapp" then
                (trace ++ [ResolveEvent.construct "twilio"],
                  TwilioWhatsAppProvider.construct tenantId channel decrypted config)
              else
                (trace, Except.error (ResolveError.unsupportedChannel "twilio" channel))
            | "aws_ses" =>
              if channel = "email" then
                (trace ++ [ResolveEvent.construct "aws_ses"],
                  SESEmailProvider.construct tenantId channel decrypted config)
              else
                (trace, Except.error (ResolveError.unsupportedChannel "aws_ses" channel))
            | p => (trace, Except.error (ResolveError.unknownProvider p))

/-! ## Adapter `send` -/

/-- Uniform send-result shape returned (resolved) by every adapter's
`send`. -/
structure SendResult where
  success : Bool
  provider_message_id : Option String := none
  status : Option String := none
  error : Option String := none
  provider : Option String := none
  demo : Option Bool := none
  deriving Repr, DecidableEq

/-- The payload handed to `this.client.messages.create` by the Twilio SMS
adapter. -/
structure TwilioPayload where
  «to» : Option String
  body : Option String
  messagingServiceSid : Option String := none
  sender : Option String := none
  deriving Repr, DecidableEq

/-- The `result.sid` field of a resolved Twilio API call. -/
structure TwilioApiOk where
  sid : String
  deriving Repr, DecidableEq

/-- An SMS/WhatsApp message object as destructured by the Twilio adapters. -/
structure SmsMessage where
  phone_number : Option String := none
  content : Option String := none
  id : Option String := none
  from_number : Option String := none
  deriving Repr, DecidableEq

/-- A row of the Mapping Ledger (`message_provider_mappings`). -/
structure MappingRow where
  message_id : String
  channel : String
  provider : String
  provider_message_id : String
  deriving Repr, DecidableEq

/-- Embedding of the carrier call inside `TwilioSmsProvider.send`:
`await this.client.messages.create(payload)` with its success return and
the catch-resolved failure on a rejected promise. -/
def TwilioSmsProvider.callCarrier (client : TwilioPayload → Except String TwilioApiOk)
    (payload : TwilioPayload) : Except JsError SendResult × Bool :=
  match client payload with
  | Except.ok r =>
    (Except.ok { success := true, provider_message_id := some r.sid,
                 status := some "sent", provider := some "twilio" }, true)
  | Except.error e =>
    (Except.ok { success := false, error := some e, provider := some "twilio" }, true)

/-- Embedding of `TwilioSmsProvider.send(message)`.  Oracles: `envMessagingServiceSid` is
`process.env.TWILIO_MESSAGING_SERVICE_SID`; `client` is
`this.client.messages.create` (its `Except.error` is the rejected-promise
message caught by the adapter's `catch`).  The second component records
whether the carrier API was invoked.

Control flow mirrors the source: an absent (`undefined`/`null`) message
throws at the destructuring inside `try`; the `catch` block then evaluates
`message.phone_number` for its `logError` metadata, which itself throws a
`TypeError` that escapes `send` — hence `Except.error` on that path.  For
an object message every throw inside `try` is caught and resolved to
`{success: false, error, provider: 'twilio'}`. -/
def TwilioSmsProvider.send (config : ProviderConfig) (envMessagingServiceSid : Option String)
    (client : TwilioPayload → Except String TwilioApiOk) (message : Option SmsMessage) :
    Except JsError SendResult × Bool :=
  match message with
  | none =>
    (Except.error (JsError.typeError
      "Cannot read properties of undefined (reading phone_number)"), false)
  | some m =>
    let fromNumber := jsOr m.from_number config.phone_number
    if truthy fromNumber = false then
      (Except.ok { success := false, error := some "No phone number configured for tenant",
                   provider := some "twilio" }, false)
    else if truthy m.phone_number = false then
      (Except.ok { success := false, error := some "Recipient phone number missing",
                   provider := some "twilio" }, false)
    else
      let messagingServiceSid := jsOr config.messaging_service_sid envMessagingServiceSid
      if truthy messagingServiceSid then
        TwilioSmsProvider.callCarrier client
          { «to» := m.phone_number, body := m.content,
            messagingServiceSid := messagingServiceSid }
      else if truthy fromNumber then
        TwilioSmsProvider.callCarrier client
          { «to» := m.phone_number, body := m.content, sender := fromNumber }
      else
        -- dead branch: `fromNumber` is truthy here by the first guard
        (Except.ok { success := false,
                     error := some "No messaging service sid or phone number configured for tenant",
                     provider := some "twilio" }, false)

/-- An email message object as destructured by the SES adapter. -/
structure EmailMessage where
  to_email : Option String := none
  subject : Option String := none
  html_body : Option String := none
  text_body : Option String := none
  from_email : Option String := none
  id : Option String := none
  deriving Repr, DecidableEq

/-- The payload handed to `this.ses.sendEmail`. -/
structure SesPayload where
  source : Option String
  toAddress : Option String
  subject : Option String
  htmlBody : Option String
  textBody : Option String := none
  configurationSetName : Option String := none
  deriving Repr, DecidableEq

/-- The `result.MessageId` field of a resolved SES API call. -/
structure SesApiOk where
  messageIdOut : String
  deriving Repr, DecidableEq

/-- Embedding of `SESEmailProvider.send(message)`.  As for the SMS adapter: an absent
message throws at the destructuring, and the `catch` block's
`{to_email: message.to_email}` metadata rethrows past the boundary; for an
object message every failure resolves to
`{success: false, error, provider: 'aws_ses'}`. -/
def SESEmailProvider.send (config : ProviderConfig)
    (ses : SesPayload → Except String SesApiOk) (message : Option EmailMessage) :
    Except JsError SendResult × Bool :=
  match message with
  | none =>
    (Except.error (JsError.typeError
      "Cannot read properties of undefined (reading to_email)"), false)
  | some m =>
    if truthy m.to_email = false || truthy m.subject = false
        || truthy m.html_body = false || truthy m.from_email = false then
      (Except.ok { success := false,
                   error := some "Missing required email fields: to_email, subject, html_body, from_email",
                   provider := some "aws_ses" }, false)
    else
      match ses { source := m.from_email, toAddress := m.to_email, subject := m.subject,
                  htmlBody := m.html_body, textBody := m.text_body,
                  configurationSetName := jsOr config.configuration_set
                    (some "engageninja-email-events") } with
      | Except.ok r =>
        (Except.ok { success := true, provider_message_id := some r.messageIdOut,
                     status := some "sent", provider := some "aws_ses" }, true)
      | Except.error e =>
        (Except.ok { success := false, error := some e, provider := some "aws_ses" }, true)

/-- Embedding of `DemoProvider.generateDemoMessageId(messageId)` =
`` `demo-${messageId}-${Date.now()}` ``. -/
def DemoProvider.generateDemoMessageId (nowMs : Nat) (messageId : Option String) : String :=
  "demo-" ++ jsStr messageId ++ "-" ++ toString nowMs

/-- Embedding of `DemoProvider.send(message)`.  No carrier call ever happens.  An absent
message throws at `message.id` inside `try`; the demo `catch` block touches
no `message` field, so even that path resolves to
`{success: false, error, provider: 'demo', demo: true}`. -/
def DemoProvider.send (nowMs : Nat) (message : Option SmsMessage) :
    Except JsError SendResult × Bool :=
  match message with
  | none =>
    (Except.ok { success := false,
                 error := some "Cannot read properties of undefined (reading id)",
                 provider := some "demo", demo := some true }, false)
  | some m =>
    (Except.ok { success := true,
                 provider_message_id := some (DemoProvider.generateDemoMessageId nowMs m.id),
                 status := some "sent", provider := some "demo", demo := some true }, false)

/-- The SMS `send` threaded through an explicit Mapping Ledger state.  The source
`TwilioSmsProvider.send` performs no database operation (no `db.` call
appears in any adapter's `send`), so the ledger passes through unchanged;
making the state explicit lets the persistence claim be stated. -/
def TwilioSmsProvider.sendWithLedger (ledger : List MappingRow) (config : ProviderConfig)
    (envMessagingServiceSid : Option String) (client : TwilioPayload → Except String TwilioApiOk)
    (message : Option SmsMessage) : (Except JsError SendResult × Bool) × List MappingRow :=
  (TwilioSmsProvider.send config envMessagingServiceSid client message, ledger)

/-- The email `send` (`SESEmailProvider.send`) threaded through an explicit Mapping Ledger
state; the source performs no database operation in `send`. -/
def SESEmailProvider.sendWithLedger (ledger : List MappingRow) (config : ProviderConfig)
    (ses : SesPayload → Except String SesApiOk) (message : Option EmailMessage) :
    (Except JsError SendResult × Bool) × List MappingRow :=
  (SESEmailProvider.send config ses message, ledger)

/-- The demo `send` (`DemoProvider.send`) threaded through an explicit Mapping Ledger state;
the source performs no database operation in `send`. -/
def DemoProvider.sendWithLedger (ledger : List MappingRow) (nowMs : Nat)
    (message : Option SmsMessage) : (Except JsError SendResult × Bool) × List MappingRow :=
  (DemoProvider.send nowMs message, ledger)

/-! ## Adapter `parseWebhook` -/

/-- A JS `Date` value as the adapters build them: `new Date()` at the
current clock, or `new Date(isoString)` from a payload timestamp. -/
inductive JsDate where
  | fromMs (ms : Nat)
  | fromString (s : String)
  deriving Repr, DecidableEq

/-- Uniform normalized webhook-parse result shape returned by every
adapter's `parseWebhook` (absent fields are `none`). -/
structure ParseResult where
  provider_message_id : Option String := none
  status : Option String := none
  timestamp : Option JsDate := none
  event_type : Option String := none
  error : Option String := none
  demo : Option Bool := none
  deriving Repr, DecidableEq

/-- A Twilio status-callback body (form-urlencoded key/values). -/
structure TwilioWebhookBody where
  «MessageSid» : Option String := none
  «MessageStatus» : Option String := none
  deriving Repr, DecidableEq

/-- Embedding of `TwilioSmsProvider.parseWebhook(body, signature)`.  `validate` is the
external `twilio.validateRequest(authToken, signature, url, params)`; the
source's `verifyWebhookSignature` wraps it in its own `try/catch` returning
`false` on a throw, so the oracle is total.  The URL passed is
`this.config.webhook_url || ''`.  Every throw inside the `try` (bad
signature, missing `MessageSid`, absent body) is caught and resolved to
`{error, status: 'unknown'}`; the `catch` block touches no `body` field.
On success the timestamp is `new Date()` — the current clock `nowMs`. -/
def TwilioSmsProvider.parseWebhook (authToken : Option String) (config : ProviderConfig)
    (validate : Option String → Option String → String → Option TwilioWebhookBody → Bool)
    (nowMs : Nat) (body : Option TwilioWebhookBody) (signature : Option String) : ParseResult :=
  let webhookUrl := jsStr (jsOr config.webhook_url (some ""))
  if validate authToken signature webhookUrl body = false then
    { error := some "Invalid webhook signature", status := some "unknown" }
  else
    match body with
    | none =>
      { error := some "Cannot read properties of undefined (reading MessageSid)",
        status := some "unknown" }
    | some b =>
      if truthy b.MessageSid = false then
        { error := some "MessageSid missing from webhook", status := some "unknown" }
      else
        { provider_message_id := b.MessageSid,
          status := some (normalizeStatus b.MessageStatus),
          timestamp := some (JsDate.fromMs nowMs) }

/-- Embedding of `TwilioWhatsAppProvider.parseWebhook`: calls `super.parseWebhook` and
returns its result unchanged (on error and on success alike). -/
def TwilioWhatsAppProvider.parseWebhook (authToken : Option String) (config : ProviderConfig)
    (validate : Option String → Option String → String → Option TwilioWebhookBody → Bool)
    (nowMs : Nat) (body : Option TwilioWebhookBody) (signature : Option String) : ParseResult :=
  TwilioSmsProvider.parseWebhook authToken config validate nowMs body signature

/-- The `event.mail` sub-object of an SES event. -/
structure SesMail where
  messageId : Option String := none
  deriving Repr, DecidableEq

/-- A timestamp-bearing SES sub-object (`delivery`/`bounce`/`complaint`). -/
structure SesTsObj where
  timestamp : Option String := none
  deriving Repr, DecidableEq

/-- An SES event object (the inner notification). -/
structure SesEvent where
  mail : Option SesMail := none
  eventType : Option String := none
  delivery : Option SesTsObj := none
  bounce : Option SesTsObj := none
  complaint : Option SesTsObj := none
  deriving Repr, DecidableEq

/-- An SES webhook body: possibly an SNS envelope (fields `Type` and
`Message`, the latter a JSON string), and the body's own event-shaped
fields (`ev`) for the non-wrapped case. -/
structure SesBody where
  «Type» : Option String := none
  «Message» : Option String := none
  ev : SesEvent := {}
  deriving Repr, DecidableEq

/-- JS `a || b || c || d` over optional strings. -/
def jsOr4 (a b c d : Option String) : Option String :=
  jsOr a (jsOr b (jsOr c d))

/-- Embedding of the part of `SESEmailProvider.parseWebhook` after the SNS
unwrap: structure validation (a missing `mail.messageId` throws, caught and
resolved to `{error, status: 'unknown'}`), the event-type→status switch,
and timestamp extraction.  `nowIso` is `new Date().toISOString()` at the
current clock, the fallback when no sub-object timestamp is present. -/
def SESEmailProvider.handleEvent (nowIso : String) (event : SesEvent) : ParseResult :=
  match event.mail with
  | none => { error := some "Invalid SES event structure", status := some "unknown" }
  | some mail =>
    if truthy mail.messageId = false then
      { error := some "Invalid SES event structure", status := some "unknown" }
    else
      let status :=
        match event.eventType with
        | some "Send" => "sent"
        | some "Delivery" => "delivered"
        | some "Bounce" => "failed"
        | some "Complaint" => "failed"
        | some "Open" => "read"
        | some "Click" => "read"
        | _ => "unknown"
      let timestamp := jsStr (jsOr4 (event.delivery.bind SesTsObj.timestamp)
        (event.bounce.bind SesTsObj.timestamp)
        (event.complaint.bind SesTsObj.timestamp) (some nowIso))
      { provider_message_id := mail.messageId,
        status := some (normalizeStatus (some status)),
        timestamp := some (JsDate.fromString timestamp),
        event_type := event.eventType }

/-- Embedding of `SESEmailProvider.parseWebhook(body, signature)`: the SNS
unwrap step (`Type = 'Notification'` with a truthy `Message` JSON string),
feeding `SESEmailProvider.handleEvent`.  `parseMessage` is `JSON.parse`
applied to the `Message` string (`Except.error` is the thrown
`SyntaxError`, caught by the adapter's `catch`).  Every throw inside the
`try` (absent body, unparsable `Message`, missing `mail.messageId`) is
caught and resolved to `{error, status: 'unknown'}`; the `catch` block
touches no `body` field. -/
def SESEmailProvider.parseWebhook (parseMessage : String → Except String SesEvent)
    (nowIso : String) (body : Option SesBody) : ParseResult :=
  match body with
  | none =>
    { error := some "Cannot read properties of undefined (reading Type)",
      status := some "unknown" }
  | some b =>
    match (if b.Type = some "Notification" && truthy b.Message then
        parseMessage (jsStr b.Message)
      else Except.ok b.ev) with
    | Except.error e => { error := some e, status := some "unknown" }
    | Except.ok event => SESEmailProvider.handleEvent nowIso event

/-- A simulated demo webhook body. -/
structure DemoBody where
  provider_message_id : Option String := none
  status : Option String := none
  timestamp : Option String := none
  deriving Repr, DecidableEq

/-- Embedding of `DemoProvider.parseWebhook(body, signature)`: no authentication; an
absent body or a falsy `provider_message_id` throws inside the `try` and is
caught and resolved to `{error, status: 'unknown', demo: true}`; the
timestamp is `new Date(body.timestamp || new Date())`. -/
def DemoProvider.parseWebhook (nowMs : Nat) (body : Option DemoBody) : ParseResult :=
  match body with
  | none =>
    { error := some "Cannot read properties of undefined (reading provider_message_id)",
      status := some "unknown", demo := some true }
  | some b =>
    if truthy b.provider_message_id = false then
      { error := some "provider_message_id missing from demo webhook",
        status := some "unknown", demo := some true }
    else
      { provider_message_id := b.provider_message_id,
        status := some (normalizeStatus b.status),
        timestamp := some (if truthy b.timestamp then JsDate.fromString (jsStr b.timestamp)
          else JsDate.fromMs nowMs),
        demo := some true }

/-! ## Shared lemmas and concrete fixtures -/

/-- A truthy optional string is in particular present. -/
theorem truthy_isSome {o : Option String} (h : truthy o = true) : o.isSome := by
  cases o <;> simp [truthy] at h ⊢

/-- A Twilio client oracle that accepts every payload, assigning sid
`CM123`. -/
def clientOk : TwilioPayload → Except String TwilioApiOk :=
  fun _ => Except.ok { sid := "CM123" }

/-- An SES client oracle that accepts every payload, assigning message id
`E1`. -/
def sesClientOk : SesPayload → Except String SesApiOk :=
  fun _ => Except.ok { messageIdOut := "E1" }

/-- An SMS tenant config with only a 10DLC sender number. -/
def cfgSms : ProviderConfig := { phone_number := some "+15550001111" }

/-- An SMS tenant config with only a pooled messaging-service id. -/
def cfgPooledOnly : ProviderConfig := { messaging_service_sid := some "MG123" }

/-- A complete SMS message object for message `m1`. -/
def msgM1 : SmsMessage :=
  { phone_number := some "+15550002222", content := some "hi", id := some "m1" }

/-- Crypto oracles on which every decryption and every JSON parse fails. -/
def oraclesBad : CryptoOracles :=
  { sha256 := fun _ => List.replicate 32 7,
    aesDecrypt := fun _ _ _ => Except.error "bad decrypt",
    parseCredJson := fun _ => Except.error "bad json" }

/-- Crypto oracles on which decryption and JSON parsing always succeed. -/
def oraclesGood : CryptoOracles :=
  { sha256 := fun _ => List.replicate 32 7,
    aesDecrypt := fun _ _ _ => Except.ok "credjson",
    parseCredJson := fun _ => Except.ok { accountSid := some "AC1", authToken := some "tok" } }

/-- A config-JSON parser oracle returning the empty config. -/
def pcEmpty : String → Except String ProviderConfig := fun _ => Except.ok {}

/-! ## C1 — send and the Mapping Ledger -/

/-- C1, counterexample: on the SMS-carrier adapter a fully successful
`send` (success = `true`, carrier id `CM123`) leaves the Mapping Ledger,
threaded from the empty state, still empty when `send` returns: no row for
message `m1` has been persisted at that point, contrary to the claim. -/
theorem c1_counterexample :
    (TwilioSmsProvider.sendWithLedger [] cfgSms none clientOk (some msgM1)).1.1 =
      Except.ok { success := true, provider_message_id := some "CM123",
                  status := some "sent", provider := some "twilio" } ∧
    (TwilioSmsProvider.sendWithLedger [] cfgSms none clientOk (some msgM1)).2 = [] := by
  constructor <;> rfl

/-- C1, amended: no adapter's `send` persists a Mapping Ledger row before
returning — the ledger state passes through `send` unchanged for the
SMS-carrier, email-carrier, and demo adapters on every input, so the
mapping row for a successful send can only be written by the caller after
`send` returns. -/
theorem c1_send_leaves_ledger_unchanged :
    (∀ ledger cfg env client msg,
      (TwilioSmsProvider.sendWithLedger ledger cfg env client msg).2 = ledger) ∧
    (∀ ledger cfg ses msg,
      (SESEmailProvider.sendWithLedger ledger cfg ses msg).2 = ledger) ∧
    (∀ ledger nowMs msg,
      (DemoProvider.sendWithLedger ledger nowMs msg).2 = ledger) :=
  ⟨fun _ _ _ _ _ => rfl, fun _ _ _ _ => rfl, fun _ _ _ => rfl⟩

/-! ## C2 — send never throws past its boundary -/

/-- C2, failing input: for an absent message object, the SMS-carrier and
email-carrier `send` implementations throw past their boundary — the
destructuring throws inside `try`, and the `catch` block then rethrows a
`TypeError` while evaluating `message.phone_number` (resp.
`message.to_email`) for its log metadata — instead of resolving to
`{success: false, error, provider}`. -/
theorem c2_send_throws_on_absent_message :
    (TwilioSmsProvider.send {} none clientOk none).1 =
      Except.error (JsError.typeError
        "Cannot read properties of undefined (reading phone_number)") ∧
    (SESEmailProvider.send {} sesClientOk none).1 =
      Except.error (JsError.typeError
        "Cannot read properties of undefined (reading to_email)") :=
  ⟨rfl, rfl⟩

/-! ## C3 — parseWebhook never throws; failures resolve to unknown -/

/-- A falsy/truthy dichotomy used when discharging JS truthiness guards. -/
theorem truthy_of_not_false {o : Option String} (h : ¬ truthy o = false) :
    truthy o = true := by
  cases ho : truthy o
  · exact absurd ho h
  · rfl

/-- Every outcome of the SES event handler either carries the message id
with no error, or carries an error with status unknown. -/
theorem sesHandleEvent_shape (nowIso : String) (event : SesEvent) :
    ((SESEmailProvider.handleEvent nowIso event).error = none ∧
      (SESEmailProvider.handleEvent nowIso event).provider_message_id.isSome) ∨
    ((SESEmailProvider.handleEvent nowIso event).error.isSome ∧
      (SESEmailProvider.handleEvent nowIso event).status = some "unknown") := by
  unfold SESEmailProvider.handleEvent
  match hm : event.mail with
  | none => simp
  | some mail =>
    by_cases hmid : truthy mail.messageId = false
    · simp [hmid]
    · have hs := truthy_isSome (truthy_of_not_false hmid)
      simp [hmid, hs]

/-- The shape property of the SES parse result, for an arbitrary outcome of
the unwrap step. -/
theorem sesUnwrapped_shape (nowIso : String) (E : Except String SesEvent) :
    ((match E with
      | Except.error e => ({ error := some e, status := some "unknown" } : ParseResult)
      | Except.ok event => SESEmailProvider.handleEvent nowIso event).error = none ∧
      (match E with
      | Except.error e => ({ error := some e, status := some "unknown" } : ParseResult)
      | Except.ok event => SESEmailProvider.handleEvent nowIso event).provider_message_id.isSome) ∨
    ((match E with
      | Except.error e => ({ error := some e, status := some "unknown" } : ParseResult)
      | Except.ok event => SESEmailProvider.handleEvent nowIso event).error.isSome ∧
      (match E with
      | Except.error e => ({ error := some e, status := some "unknown" } : ParseResult)
      | Except.ok event => SESEmailProvider.handleEvent nowIso event).status = some "unknown") := by
  cases E with
  | error e => simp
  | ok event => exact sesHandleEvent_shape nowIso event

/-- C3: for every adapter and every raw webhook body and signature input
(including absent or field-missing bodies), `parseWebhook` is a total
function — no exception escapes, since every throw inside its `try` is
caught and the `catch` blocks touch no input field — and its result is
either a success carrying the carrier message id with no `error` field, or
a failure whose `error` field is set and whose `status` is `"unknown"`. -/
theorem c3_parseWebhook_failures_resolve_unknown :
    (∀ tok cfg validate nowMs body sig,
      ((TwilioSmsProvider.parseWebhook tok cfg validate nowMs body sig).error = none ∧
        (TwilioSmsProvider.parseWebhook tok cfg validate nowMs body sig).provider_message_id.isSome) ∨
      ((TwilioSmsProvider.parseWebhook tok cfg validate nowMs body sig).error.isSome ∧
        (TwilioSmsProvider.parseWebhook tok cfg validate nowMs body sig).status = some "unknown")) ∧
    (∀ pm nowIso body,
      ((SESEmailProvider.parseWebhook pm nowIso body).error = none ∧
        (SESEmailProvider.parseWebhook pm nowIso body).provider_message_id.isSome) ∨
      ((SESEmailProvider.parseWebhook pm nowIso body).error.isSome ∧
        (SESEmailProvider.parseWebhook pm nowIso body).status = some "unknown")) ∧
    (∀ nowMs body,
      ((DemoProvider.parseWebhook nowMs body).error = none ∧
        (DemoProvider.parseWebhook nowMs body).provider_message_id.isSome) ∨
      ((DemoProvider.parseWebhook nowMs body).error.isSome ∧
        (DemoProvider.parseWebhook nowMs body).status = some "unknown")) := by
  refine ⟨?_, ?_, ?_⟩
  · intro tok cfg validate nowMs body sig
    unfold TwilioSmsProvider.parseWebhook
    by_cases hv : validate tok sig (jsStr (jsOr cfg.webhook_url (some ""))) body = false
    · simp [hv]
    · match body with
      | none => simp [hv]
      | some b =>
        by_cases h : truthy b.MessageSid = false
        · simp [hv, h]
        · have hs := truthy_isSome (truthy_of_not_false h)
          simp [hv, h, hs]
  · intro pm nowIso body
    unfold SESEmailProvider.parseWebhook
    match body with
    | none => simp
    | some b => exact sesUnwrapped_shape nowIso _
  · intro nowMs body
    unfold DemoProvider.parseWebhook
    match body with
    | none => simp
    | some b =>
      by_cases h : truthy b.provider_message_id = false
      · simp [h]
      · have hs := truthy_isSome (truthy_of_not_false h)
        simp [h, hs]

/-! ## C4 — demo tenants always resolve to the Demo adapter -/

/-- C4: for every database state, for every tenant flagged demo and every
channel in {sms, whatsapp, email}, `getProvider` returns the Demo adapter
right after the tenant lookup: the step trace contains no credential
lookup and no decryption, and the result is a constant independent of
every stored credential row for that tenant. -/
theorem c4_demo_tenant_resolves_demo :
    ∀ (oracles : CryptoOracles) (pc : String → Except String ProviderConfig)
      (env : Option String) (db : Db) (tenantId channel : String) (t : TenantRow),
      db.tenants tenantId = some t → t.is_demo = true →
      channel ∈ (["sms", "whatsapp", "email"] : List String) →
      getProvider oracles pc env db tenantId channel =
        ([ResolveEvent.tenantLookup, ResolveEvent.construct "demo"],
          Except.ok (Provider.demo tenantId channel)) ∧
      ResolveEvent.credLookup ∉ (getProvider oracles pc env db tenantId channel).1 ∧
      ResolveEvent.decrypt ∉ (getProvider oracles pc env db tenantId channel).1 := by
  intro oracles pc env db tenantId channel t ht hdemo _
  have key : getProvider oracles pc env db tenantId channel =
      ([ResolveEvent.tenantLookup, ResolveEvent.construct "demo"],
        Except.ok (Provider.demo tenantId channel)) := by
    unfold getProvider
    rw [ht]
    simp [hdemo]
  refine ⟨key, ?_, ?_⟩ <;> rw [key] <;> simp

/-- A database holding the demo tenant `t1` together with stored (and
undecryptable) twilio credential rows on every channel. -/
def dbDemo : Db :=
  { tenants := fun t => if t = "t1" then some { id := "t1", is_demo := true } else none,
    creds := fun _ _ =>
      some { provider := "twilio", credentials_json_encrypted := some "deadbeef",
             provider_config_json := none } }

/-- Witness for C4: the concrete demo tenant `t1` with stored credential
rows resolves on channel sms to the Demo adapter with no credential lookup
in the trace. -/
theorem c4_witness :
    getProvider oraclesBad pcEmpty none dbDemo "t1" "sms" =
      ([ResolveEvent.tenantLookup, ResolveEvent.construct "demo"],
        Except.ok (Provider.demo "t1" "sms")) :=
  (c4_demo_tenant_resolves_demo oraclesBad pcEmpty none dbDemo "t1" "sms"
    { id := "t1", is_demo := true } (by decide) rfl (by decide)).1

/-! ## C5 — SMS send validation and sender resolution -/

/-- C5, counterexample: a message with a recipient present, sent through a
config holding a pooled messaging-service id but no from-number, has a
resolvable sender per the claim; the code nevertheless fails fast with
`No phone number configured for tenant` without invoking the carrier,
because the from-number guard runs before the pooled id is consulted. -/
theorem c5_counterexample :
    truthy msgM1.phone_number = true ∧
    truthy cfgPooledOnly.messaging_service_sid = true ∧
    TwilioSmsProvider.send cfgPooledOnly none clientOk (some msgM1) =
      (Except.ok { success := false, error := some "No phone number configured for tenant",
                   provider := some "twilio" }, false) := by
  refine ⟨rfl, rfl, rfl⟩

/-- C5, amended: for every SMS message object, `send` fails fast without
invoking the carrier exactly when no explicit from-number resolves (message
override or tenant-configured number) or the recipient is missing; a pooled
messaging-service id never substitutes for the from-number — it only
selects the payload shape after the from-number guard has passed — and
every fail-fast outcome is a resolved `{success: false, error, provider}`
value with a descriptive message. -/
theorem c5_sms_validation :
    ∀ (cfg : ProviderConfig) (env : Option String)
      (client : TwilioPayload → Except String TwilioApiOk) (m : SmsMessage),
      ((TwilioSmsProvider.send cfg env client (some m)).2 = false ↔
        (truthy (jsOr m.from_number cfg.phone_number) = false ∨
          truthy m.phone_number = false)) ∧
      ((TwilioSmsProvider.send cfg env client (some m)).2 = false →
        ∃ e, TwilioSmsProvider.send cfg env client (some m) =
          (Except.ok { success := false, error := some e, provider := some "twilio" },
            false)) := by
  intro cfg env client m
  have hsnd : ∀ p, (TwilioSmsProvider.callCarrier client p).2 = true := by
    intro p
    unfold TwilioSmsProvider.callCarrier
    cases client p <;> rfl
  constructor
  · simp only [TwilioSmsProvider.send]
    split_ifs with hf hp hm hfn
    · simp [hf]
    · simp [hp]
    · simp [hsnd, hf, hp]
    · simp [hsnd, hf, hp]
    · exact absurd (truthy_of_not_false hf) hfn
  · simp only [TwilioSmsProvider.send]
    split_ifs with hf hp hm hfn
    · exact fun _ => ⟨"No phone number configured for tenant", rfl⟩
    · exact fun _ => ⟨"Recipient phone number missing", rfl⟩
    · intro h
      exact absurd h (by simp [hsnd])
    · intro h
      exact absurd h (by simp [hsnd])
    · exact absurd (truthy_of_not_false hf) hfn

/-- Witness for C5: with an empty config and no override, `send` of a
well-formed message fails fast without invoking the carrier. -/
theorem c5_witness :
    (TwilioSmsProvider.send {} none clientOk (some msgM1)).2 = false :=
  (c5_sms_validation {} none clientOk msgM1).1.mpr (Or.inl (by decide))

/-! ## C6 — SES webhook envelope unwrapping and status mapping -/

/-- C6: the email-carrier `parseWebhook` first unwraps an SNS envelope
(type discriminator `Notification` with a truthy `Message` JSON string)
and then behaves exactly as on a body carrying the decoded inner event;
on an event whose inner `mail.messageId` is present it reports that id
with no error and maps the event-type discriminator as
Send→sent, Delivery→delivered, Bounce→failed, Complaint→failed,
Open→read, Click→read, and any other (or absent) value→unknown;
a missing inner `mail.messageId` is a hard parse failure resolving to
`{error, status: "unknown"}`. -/
theorem c6_ses_webhook_normalization :
    (∀ (pm : String → Except String SesEvent) (nowIso : String) (b : SesBody) (ev : SesEvent),
      b.Type = some "Notification" → truthy b.Message = true →
      pm (jsStr b.Message) = Except.ok ev →
      SESEmailProvider.parseWebhook pm nowIso (some b) =
        SESEmailProvider.parseWebhook pm nowIso (some { ev := ev })) ∧
    (∀ (pm : String → Except String SesEvent) (nowIso : String) (ev : SesEvent) (mail : SesMail),
      ev.mail = some mail → truthy mail.messageId = true →
      (SESEmailProvider.parseWebhook pm nowIso (some { ev := ev })).provider_message_id =
        mail.messageId ∧
      (SESEmailProvider.parseWebhook pm nowIso (some { ev := ev })).error = none ∧
      (ev.eventType = some "Send" →
        (SESEmailProvider.parseWebhook pm nowIso (some { ev := ev })).status = some "sent") ∧
      (ev.eventType = some "Delivery" →
        (SESEmailProvider.parseWebhook pm nowIso (some { ev := ev })).status = some "delivered") ∧
      (ev.eventType = some "Bounce" →
        (SESEmailProvider.parseWebhook pm nowIso (some { ev := ev })).status = some "failed") ∧
      (ev.eventType = some "Complaint" →
        (SESEmailProvider.parseWebhook pm nowIso (some { ev := ev })).status = some "failed") ∧
      (ev.eventType = some "Open" →
        (SESEmailProvider.parseWebhook pm nowIso (some { ev := ev })).status = some "read") ∧
      (ev.eventType = some "Click" →
        (SESEmailProvider.parseWebhook pm nowIso (some { ev := ev })).status = some "read") ∧
      (∀ s, ev.eventType = some s →
        s ∉ (["Send", "Delivery", "Bounce", "Complaint", "Open", "Click"] : List String) →
        (SESEmailProvider.parseWebhook pm nowIso (some { ev := ev })).status = some "unknown") ∧
      (ev.eventType = none →
        (SESEmailProvider.parseWebhook pm nowIso (some { ev := ev })).status = some "unknown")) ∧
    (∀ (pm : String → Except String SesEvent) (nowIso : String) (ev : SesEvent),
      (ev.mail = none ∨ ∃ mail, ev.mail = some mail ∧ truthy mail.messageId = false) →
      SESEmailProvider.parseWebhook pm nowIso (some { ev := ev }) =
        { error := some "Invalid SES event structure", status := some "unknown" }) := by
  refine ⟨?_, ?_, ?_⟩
  · intro pm nowIso b ev hT hM hpm
    simp [SESEmailProvider.parseWebhook, hT, hM, hpm]
  · intro pm nowIso ev mail hm hmid
    have hred : SESEmailProvider.parseWebhook pm nowIso (some { ev := ev }) =
        SESEmailProvider.handleEvent nowIso ev := rfl
    rw [hred]
    simp only [SESEmailProvider.handleEvent, hm, hmid]
    refine ⟨rfl, rfl, ?_, ?_, ?_, ?_, ?_, ?_, ?_, ?_⟩
    · intro hET; simp [hET, normalizeStatus]
    · intro hET; simp [hET, normalizeStatus]
    · intro hET; simp [hET, normalizeStatus]
    · intro hET; simp [hET, normalizeStatus]
    · intro hET; simp [hET, normalizeStatus]
    · intro hET; simp [hET, normalizeStatus]
    · intro s hET hnot
      simp only [hET]
      split
      all_goals simp_all [normalizeStatus]
    · intro hET; simp [hET, normalizeStatus]
  · intro pm nowIso ev h
    have hred : SESEmailProvider.parseWebhook pm nowIso (some { ev := ev }) =
        SESEmailProvider.handleEvent nowIso ev := rfl
    rw [hred]
    rcases h with h | ⟨mail, hm, hmid⟩
    · simp [SESEmailProvider.handleEvent, h]
    · simp [SESEmailProvider.handleEvent, hm, hmid]

/-- The decoded inner bounce event for message `E1`. -/
def evBounceE1 : SesEvent :=
  { mail := some { messageId := some "E1" }, eventType := some "Bounce" }

/-- A `JSON.parse` oracle decoding the one bounce-notification string. -/
def pmBounce : String → Except String SesEvent :=
  fun s => if s = "bounce-notification-E1" then Except.ok evBounceE1
    else Except.error "Unexpected token in JSON"

/-- A wrapped SNS envelope carrying the bounce notification. -/
def bodyWrappedBounce : SesBody :=
  { «Type» := some "Notification", «Message» := some "bounce-notification-E1" }

/-- Witness for C6: the concrete SNS-wrapped bounce callback is unwrapped
and normalizes to status failed. -/
theorem c6_witness :
    SESEmailProvider.parseWebhook pmBounce "2026-01-01T00:00:00Z" (some bodyWrappedBounce) =
      SESEmailProvider.parseWebhook pmBounce "2026-01-01T00:00:00Z" (some { ev := evBounceE1 }) ∧
    (SESEmailProvider.parseWebhook pmBounce "2026-01-01T00:00:00Z"
      (some { ev := evBounceE1 })).status = some "failed" :=
  ⟨c6_ses_webhook_normalization.1 pmBounce "2026-01-01T00:00:00Z" bodyWrappedBounce evBounceE1
      rfl rfl rfl,
    ((c6_ses_webhook_normalization.2.1 pmBounce "2026-01-01T00:00:00Z" evBounceE1
      { messageId := some "E1" } rfl rfl).2.2.2.2.1) rfl⟩

/-! ## C7 — credential decryption: typed error, never garbage -/

/-- C7: `decryptCredentials` returns a structured credential object only
when the blob is non-empty, AES decryption under the key derived by
SHA-256-hashing the configured key string truncated to the cipher key
length with the all-zero IV succeeds, and the plaintext parses as JSON;
every failure raises the single typed error
`Invalid credentials - decryption failed`, and for a non-empty blob the
outcome is always either that typed error or a full structured object —
never a partial or garbage value. -/
theorem c7_decrypt_typed_error_never_garbage :
    (∀ (oracles : CryptoOracles) (env blob : Option String) (obj : CredObj),
      decryptCredentials oracles env blob = Except.ok (some obj) →
      truthy blob = true ∧
      ∃ plaintext,
        oracles.aesDecrypt
          (deriveKey oracles.sha256
            (jsStr (jsOr env (some "default-dev-key-change-in-production"))))
          zeroIV (jsStr blob) = Except.ok plaintext ∧
        oracles.parseCredJson plaintext = Except.ok obj) ∧
    (∀ (oracles : CryptoOracles) (env blob : Option String) (e : ResolveError),
      decryptCredentials oracles env blob = Except.error e →
      e = ResolveError.invalidCredentials) ∧
    (∀ (oracles : CryptoOracles) (env blob : Option String), truthy blob = true →
      decryptCredentials oracles env blob = Except.error ResolveError.invalidCredentials ∨
      ∃ obj, decryptCredentials oracles env blob = Except.ok (some obj)) := by
  refine ⟨?_, ?_, ?_⟩
  · intro oracles env blob obj h
    unfold decryptCredentials at h
    by_cases hb : truthy blob = false
    · rw [if_pos hb] at h
      exact absurd h (by simp)
    · rw [if_neg hb] at h
      refine ⟨truthy_of_not_false hb, ?_⟩
      rcases hd : oracles.aesDecrypt
          (deriveKey oracles.sha256
            (jsStr (jsOr env (some "default-dev-key-change-in-production"))))
          zeroIV (jsStr blob) with e | plaintext
      · simp only [hd] at h
        exact absurd h (by simp)
      · simp only [hd] at h
        rcases hp : oracles.parseCredJson plaintext with e | obj2
        · simp only [hp] at h
          exact absurd h (by simp)
        · simp only [hp, Except.ok.injEq, Option.some.injEq] at h
          exact ⟨plaintext, rfl, by rw [hp, h]⟩
  · intro oracles env blob e h
    unfold decryptCredentials at h
    by_cases hb : truthy blob = false
    · rw [if_pos hb] at h
      exact absurd h (by simp)
    · rw [if_neg hb] at h
      rcases hd : oracles.aesDecrypt
          (deriveKey oracles.sha256
            (jsStr (jsOr env (some "default-dev-key-change-in-production"))))
          zeroIV (jsStr blob) with e2 | plaintext
      · simp only [hd, Except.error.injEq] at h
        exact h.symm
      · simp only [hd] at h
        rcases hp : oracles.parseCredJson plaintext with e2 | obj
        · simp only [hp, Except.error.injEq] at h
          exact h.symm
        · simp only [hp] at h
          exact absurd h (by simp)
  · intro oracles env blob hb
    unfold decryptCredentials
    rw [if_neg (by simp [hb])]
    rcases hd : oracles.aesDecrypt
        (deriveKey oracles.sha256
          (jsStr (jsOr env (some "default-dev-key-change-in-production"))))
        zeroIV (jsStr blob) with e | plaintext
    · exact Or.inl rfl
    · rcases hp : oracles.parseCredJson plaintext with e | obj
      · exact Or.inl (by simp [hp])
      · exact Or.inr ⟨obj, by simp [hp]⟩

/-- Witness for C7: on oracles where decryption and JSON parsing succeed,
a non-empty blob decrypts through the derived-key pipeline to the full
structured object. -/
theorem c7_witness :
    truthy (some "abcd") = true ∧
    ∃ plaintext,
      oraclesGood.aesDecrypt
        (deriveKey oraclesGood.sha256
          (jsStr (jsOr none (some "default-dev-key-change-in-production"))))
        zeroIV (jsStr (some "abcd")) = Except.ok plaintext ∧
      oraclesGood.parseCredJson plaintext =
        Except.ok { accountSid := some "AC1", authToken := some "tok" } :=
  c7_decrypt_typed_error_never_garbage.1 oraclesGood none (some "abcd")
    { accountSid := some "AC1", authToken := some "tok" } rfl

/-! ## C8 — unsupported carrier/channel pairing -/

/-- C8, counterexample: a non-demo tenant whose email-channel credential
row names twilio but whose blob does not decrypt fails with the
decryption error `Invalid credentials - decryption failed`, not with the
unsupported-channel error the claim requires for every such row. -/
theorem c8_counterexample :
    (getProvider oraclesBad pcEmpty none
      { tenants := fun t => if t = "t2" then some { id := "t2", is_demo := false } else none,
        creds := fun t c =>
          if t = "t2" then
            if c = "email" then
              some { provider := "twilio", credentials_json_encrypted := some "ffff",
                     provider_config_json := none }
            else none
          else none }
      "t2" "email").2 = Except.error ResolveError.invalidCredentials ∧
    ResolveError.invalidCredentials ≠ ResolveError.unsupportedChannel "twilio" "email" := by
  constructor
  · rfl
  · decide

/-- C8, amended: for every non-demo tenant whose email-channel credential
row names twilio, `getProvider` never runs an adapter constructor — the
step trace is exactly tenant lookup, credential lookup, decrypt — and
whenever credential decryption and config parsing themselves succeed the
failure is precisely `Twilio does not support channel: email`; a blob
that fails to decrypt fails earlier with the decryption error instead. -/
theorem c8_twilio_email_unsupported :
    ∀ (oracles : CryptoOracles) (pc : String → Except String ProviderConfig)
      (env : Option String) (db : Db) (tenantId : String) (t : TenantRow) (row : CredRow),
      db.tenants tenantId = some t → t.is_demo = false →
      db.creds tenantId "email" = some row → row.provider = "twilio" →
      (getProvider oracles pc env db tenantId "email").1 =
        [ResolveEvent.tenantLookup, ResolveEvent.credLookup, ResolveEvent.decrypt] ∧
      (∀ p, ResolveEvent.construct p ∉ (getProvider oracles pc env db tenantId "email").1) ∧
      (∀ d cfg,
        decryptCredentials oracles env row.credentials_json_encrypted = Except.ok d →
        (if truthy row.provider_config_json then pc (jsStr row.provider_config_json)
          else Except.ok {}) = Except.ok cfg →
        (getProvider oracles pc env db tenantId "email").2 =
          Except.error (ResolveError.unsupportedChannel "twilio" "email")) := by
  intro oracles pc env db tenantId t row ht hdemo hrow hprov
  have hred : getProvider oracles pc env db tenantId "email" =
      (match decryptCredentials oracles env row.credentials_json_encrypted with
        | Except.error e =>
          ([ResolveEvent.tenantLookup, ResolveEvent.credLookup, ResolveEvent.decrypt],
            Except.error e)
        | Except.ok _ =>
          match (if truthy row.provider_config_json then pc (jsStr row.provider_config_json)
              else Except.ok {}) with
          | Except.error e =>
            ([ResolveEvent.tenantLookup, ResolveEvent.credLookup, ResolveEvent.decrypt],
              Except.error (ResolveError.configJsonError e))
          | Except.ok _ =>
            ([ResolveEvent.tenantLookup, ResolveEvent.credLookup, ResolveEvent.decrypt],
              Except.error (ResolveError.unsupportedChannel "twilio" "email"))) := by
    unfold getProvider
    rw [ht]
    simp only [hdemo, if_false, Bool.false_eq_true, hrow, hprov]
    rcases decryptCredentials oracles env row.credentials_json_encrypted with e | d
    · rfl
    · rcases (if truthy row.provider_config_json then pc (jsStr row.provider_config_json)
          else Except.ok ({} : ProviderConfig)) with e | cfg <;> rfl
  refine ⟨?_, ?_, ?_⟩
  · rw [hred]
    rcases decryptCredentials oracles env row.credentials_json_encrypted with e | d
    · rfl
    · rcases (if truthy row.provider_config_json then pc (jsStr row.provider_config_json)
          else Except.ok ({} : ProviderConfig)) with e | cfg <;> rfl
  · intro p
    rw [hred]
    rcases decryptCredentials oracles env row.credentials_json_encrypted with e | d
    · simp
    · rcases (if truthy row.provider_config_json then pc (jsStr row.provider_config_json)
          else Except.ok ({} : ProviderConfig)) with e | cfg <;> simp
  · intro d cfg hd hcfg
    rw [hred, hd, hcfg]

/-- A non-demo tenant `t3` with an email-channel twilio row whose blob is
empty. -/
def dbTwilioEmail : Db :=
  { tenants := fun t => if t = "t3" then some { id := "t3", is_demo := false } else none,
    creds := fun t c =>
      if t = "t3" then
        if c = "email" then
          some { provider := "twilio", credentials_json_encrypted := none,
                 provider_config_json := none }
        else none
      else none }

/-- Witness for C8: the concrete empty-blob twilio/email row fails with
the unsupported-channel error. -/
theorem c8_witness :
    (getProvider oraclesBad pcEmpty none dbTwilioEmail "t3" "email").2 =
      Except.error (ResolveError.unsupportedChannel "twilio" "email") :=
  (c8_twilio_email_unsupported oraclesBad pcEmpty none dbTwilioEmail "t3"
    { id := "t3", is_demo := false }
    { provider := "twilio", credentials_json_encrypted := none, provider_config_json := none }
    (by decide) rfl (by decide) rfl).2.2 none {} rfl rfl

/-! ## C9 — parseWebhook determinism and the timestamp field -/

/-- A signature validator that accepts every callback (standing for a
correctly signed request under `twilio.validateRequest`). -/
def validateAlways : Option String → Option String → String → Option TwilioWebhookBody → Bool :=
  fun _ _ _ _ => true

/-- A delivered status callback for carrier message `CM123`. -/
def twBodyDelivered : TwilioWebhookBody :=
  { «MessageSid» := some "CM123", «MessageStatus» := some "delivered" }

/-- C9, counterexample: the SMS-carrier adapter stamps `new Date()` — the
current clock — on every successfully parsed webhook, so the same payload
and signature parsed at two different clock instants yield results whose
timestamp fields differ, contradicting the claim's identical-timestamp
requirement. -/
theorem c9_counterexample :
    TwilioSmsProvider.parseWebhook (some "tok") {} validateAlways 0
        (some twBodyDelivered) (some "sig") ≠
      TwilioSmsProvider.parseWebhook (some "tok") {} validateAlways 1
        (some twBodyDelivered) (some "sig") := by
  decide

/-- The first-truthy selection of a JS `||` chain is independent of the
fallback once some link is truthy. -/
theorem jsOr4_of_truthy {a b c : Option String}
    (h : truthy (jsOr a (jsOr b c)) = true) (x y : Option String) :
    jsOr4 a b c x = jsOr4 a b c y := by
  unfold jsOr4
  unfold jsOr at h ⊢
  by_cases ha : truthy a = true
  · simp [ha]
  · by_cases hbb : truthy b = true
    · simp [ha, hbb]
    · simp [ha, hbb] at h
      simp [ha, hbb, h]

/-- C9, amended: `parseWebhook` is deterministic and stateless given a
fixed clock; across two calls at different clock instants all result
fields except the timestamp agree for the SMS-carrier adapter, and the
whole result (timestamp included) agrees whenever the timestamp comes
from the payload — an email event carrying a delivery/bounce/complaint
timestamp, or a demo body carrying a timestamp field; only the SMS
adapter and the fallback paths stamp the current time. -/
theorem c9_parseWebhook_deterministic :
    (∀ tok cfg validate nowA nowB body sig,
      (TwilioSmsProvider.parseWebhook tok cfg validate nowA body sig).provider_message_id =
        (TwilioSmsProvider.parseWebhook tok cfg validate nowB body sig).provider_message_id ∧
      (TwilioSmsProvider.parseWebhook tok cfg validate nowA body sig).status =
        (TwilioSmsProvider.parseWebhook tok cfg validate nowB body sig).status ∧
      (TwilioSmsProvider.parseWebhook tok cfg validate nowA body sig).error =
        (TwilioSmsProvider.parseWebhook tok cfg validate nowB body sig).error ∧
      (TwilioSmsProvider.parseWebhook tok cfg validate nowA body sig).event_type =
        (TwilioSmsProvider.parseWebhook tok cfg validate nowB body sig).event_type ∧
      (TwilioSmsProvider.parseWebhook tok cfg validate nowA body sig).demo =
        (TwilioSmsProvider.parseWebhook tok cfg validate nowB body sig).demo) ∧
    (∀ (pm : String → Except String SesEvent) (nowA nowB : String) (ev : SesEvent),
      truthy (jsOr (ev.delivery.bind SesTsObj.timestamp)
        (jsOr (ev.bounce.bind SesTsObj.timestamp)
          (ev.complaint.bind SesTsObj.timestamp))) = true →
      SESEmailProvider.parseWebhook pm nowA (some { ev := ev }) =
        SESEmailProvider.parseWebhook pm nowB (some { ev := ev })) ∧
    (∀ (nowA nowB : Nat) (b : DemoBody), truthy b.timestamp = true →
      DemoProvider.parseWebhook nowA (some b) = DemoProvider.parseWebhook nowB (some b)) := by
  refine ⟨?_, ?_, ?_⟩
  · intro tok cfg validate nowA nowB body sig
    unfold TwilioSmsProvider.parseWebhook
    by_cases hv : validate tok sig (jsStr (jsOr cfg.webhook_url (some ""))) body = false
    · simp [hv]
    · match body with
      | none => simp [hv]
      | some b =>
        by_cases h : truthy b.MessageSid = false
        · simp [hv, h]
        · simp [hv, h]
  · intro pm nowA nowB ev hts
    have hA : SESEmailProvider.parseWebhook pm nowA (some { ev := ev }) =
        SESEmailProvider.handleEvent nowA ev := rfl
    have hB : SESEmailProvider.parseWebhook pm nowB (some { ev := ev }) =
        SESEmailProvider.handleEvent nowB ev := rfl
    rw [hA, hB]
    unfold SESEmailProvider.handleEvent
    match hm : ev.mail with
    | none => rfl
    | some mail =>
      by_cases hmid : truthy mail.messageId = false
      · simp [hmid]
      · have hts2 := jsOr4_of_truthy hts (some nowA) (some nowB)
        simp [hmid, hts2]
  · intro nowA nowB b ht
    unfold DemoProvider.parseWebhook
    by_cases h : truthy b.provider_message_id = false
    · simp [h]
    · simp [h, ht]

/-- A simulated delivered webhook body carrying its own timestamp. -/
def demoBodyDone : DemoBody :=
  { provider_message_id := some "demo-m2-1703081234567",
    status := some "delivered", timestamp := some "2026-01-01T00:00:05Z" }

/-- Witness for C9: the concrete demo webhook carrying a payload timestamp
parses identically at two different clock instants. -/
theorem c9_witness :
    DemoProvider.parseWebhook 0 (some demoBodyDone) =
      DemoProvider.parseWebhook 1 (some demoBodyDone) :=
  c9_parseWebhook_deterministic.2.2 0 1 demoBodyDone (by decide)

/-! ## C10 — empty blob: null credentials, constructor surfaces failure -/

/-- C10: `decryptCredentials` returns `null` without error for every absent
or empty blob; its typed error arises only for non-empty blobs; and on a
non-demo tenant whose sms twilio row has an empty blob and no config JSON,
`getProvider` passes the null credentials to the adapter constructor — the
construct step is reached and the failure is exactly the constructor's
missing-credentials error. -/
theorem c10_empty_blob_null_credentials :
    (∀ (oracles : CryptoOracles) (env blob : Option String), truthy blob = false →
      decryptCredentials oracles env blob = Except.ok none) ∧
    (∀ (oracles : CryptoOracles) (env blob : Option String) (e : ResolveError),
      decryptCredentials oracles env blob = Except.error e → truthy blob = true) ∧
    (∀ (oracles : CryptoOracles) (pc : String → Except String ProviderConfig)
      (env : Option String) (db : Db) (tenantId : String) (t : TenantRow) (row : CredRow),
      db.tenants tenantId = some t → t.is_demo = false →
      db.creds tenantId "sms" = some row → row.provider = "twilio" →
      truthy row.credentials_json_encrypted = false →
      truthy row.provider_config_json = false →
      getProvider oracles pc env db tenantId "sms" =
        ([ResolveEvent.tenantLookup, ResolveEvent.credLookup, ResolveEvent.decrypt,
          ResolveEvent.construct "twilio"],
          Except.error (ResolveError.missingCredentials
            "Twilio SMS: Missing required credentials (accountSid, authToken)"))) := by
  refine ⟨?_, ?_, ?_⟩
  · intro oracles env blob hb
    unfold decryptCredentials
    rw [if_pos hb]
  · intro oracles env blob e h
    by_cases hb : truthy blob = false
    · unfold decryptCredentials at h
      rw [if_pos hb] at h
      exact absurd h (by simp)
    · exact truthy_of_not_false hb
  · intro oracles pc env db tenantId t row ht hdemo hrow hprov hblob hcfg
    have hd : decryptCredentials oracles env row.credentials_json_encrypted =
        Except.ok none := by
      unfold decryptCredentials
      rw [if_pos hblob]
    unfold getProvider
    rw [ht]
    simp only [hdemo, Bool.false_eq_true, if_false]
    rw [hrow]
    simp only [hd, hcfg, hprov, if_false]
    rfl

/-- A non-demo tenant `t4` whose sms twilio credential row has an empty
blob and no config JSON. -/
def dbTwilioSmsEmpty : Db :=
  { tenants := fun t => if t = "t4" then some { id := "t4", is_demo := false } else none,
    creds := fun t c =>
      if t = "t4" then
        if c = "sms" then
          some { provider := "twilio", credentials_json_encrypted := none,
                 provider_config_json := none }
        else none
      else none }

/-- Witness for C10: an absent blob decrypts to null without error, and the
concrete empty-blob sms row fails with the constructor's
missing-credentials error after the construct step. -/
theorem c10_witness :
    decryptCredentials oraclesBad none none = Except.ok none ∧
    getProvider oraclesBad pcEmpty none dbTwilioSmsEmpty "t4" "sms" =
      ([ResolveEvent.tenantLookup, ResolveEvent.credLookup, ResolveEvent.decrypt,
        ResolveEvent.construct "twilio"],
        Except.error (ResolveError.missingCredentials
          "Twilio SMS: Missing required credentials (accountSid, authToken)")) :=
  ⟨c10_empty_blob_null_credentials.1 oraclesBad none none rfl,
    c10_empty_blob_null_credentials.2.2 oraclesBad pcEmpty none dbTwilioSmsEmpty "t4"
      { id := "t4", is_demo := false }
      { provider := "twilio", credentials_json_encrypted := none, provider_config_json := none }
      (by decide) rfl (by decide) rfl rfl rfl⟩

end EngageNinja
